import Mathlib

/-!
Shallow embedding of `src/latestblogproject/src/App.jsx` (component
`BlogPostsWithPopup`) and proofs about its fetch-and-render state machine.

The component keeps four pieces of React state (`posts`, `error`, `loading`,
`popupImage`), runs one mount-time effect that fetches posts, exposes one
button handler that draws a pseudo-random boolean, and renders a view tree
that is a pure function of the state.  We embed the state as a structure,
the effect body and the click handler as state transformers parameterised
by their environment inputs (the fetch outcome, the random draw), and the
JSX as a function from state to a tree of DOM-like nodes.

JavaScript truthiness matters for the render conditions: `error` is either
`null` or a string, and an empty string is falsy, so `if (error)` and
`error && ...` test both non-nullness and non-emptiness.  `popupImage` is
either `null` or one of the two bundled asset references, whose URLs are
non-empty strings, hence truthy exactly when non-null.  JSX children that
are `null`, `false` or the empty string render nothing; the embedding omits
them.  Styling attributes (`style={\x7b maxWidth ... \x7d}`) and React `key`
props are presentation details with no bearing on the claims and are not
modelled.
-/

set_option autoImplicit false

namespace BlogApp

/-- Shape of a blog post as consumed from the API response: `id`, `title`
and `body` (the `userId` field of the endpoint is never read). -/
structure Post where
  id : Int
  title : String
  body : String
deriving DecidableEq, Repr

/-- The two static image assets imported at the top of `App.jsx`:
`successImage` (blog-posts.png) and `errorImage` (error-message.png). -/
inductive Asset where
  | successImage
  | errorImage
deriving DecidableEq, Repr

/-- The component's React state: `posts`, `error`, `loading`, `popupImage`,
in declaration order (App.jsx lines 17-20). -/
structure ViewState where
  posts : List Post
  error : Option String
  loading : Bool
  popupImage : Option Asset
deriving DecidableEq, Repr

/-- Initial state from the `useState` initialisers: empty post list, no
error, loading true, no popup image. -/
def initialState : ViewState :=
  { posts := [], error := none, loading := true, popupImage := none }

/-- JavaScript truthiness of the `error` state variable (`null` or a
string): truthy iff non-null and non-empty. -/
def errTruthy : Option String → Bool
  | none => false
  | some s => !(s == "")

/-- JavaScript truthiness of the `popupImage` state variable (`null` or an
imported asset URL, which is a non-empty string): truthy iff non-null. -/
def popupTruthy : Option Asset → Bool
  | none => false
  | some _ => true

/-- String rendered for `{error}` in JSX: the stored string, or nothing for
`null`. -/
def errString : Option String → String
  | none => ""
  | some s => s

/-- Result of `response.json()`: either a parse failure carrying the thrown
error's message, or the decoded array of posts. -/
inductive JsonResult where
  | parseError (msg : String)
  | decoded (posts : List Post)
deriving DecidableEq, Repr

/-- Outcome of the `fetch` call as seen by `fetchPosts`: the promise
rejects with an error carrying a message (network/transport failure), or it
resolves to a response with an `ok` flag and a body to be JSON-parsed. -/
inductive FetchOutcome where
  | networkError (msg : String)
  | response (ok : Bool) (body : JsonResult)
deriving DecidableEq, Repr

/-- The message of the `Error` thrown by `fetchPosts` when `response.ok` is
false (App.jsx line 33). -/
def genericErrorMessage : String := "Failed to fetch posts. Please try again later."

/-- The mount-time effect body `fetchPosts` (App.jsx lines 29-42) as a state
transformer over the fetch outcome: `try` awaits the fetch (a rejection is
caught with its own message), throws the generic message on a non-ok
response, awaits JSON parsing (a rejection is caught with its own message),
and stores the decoded posts on success; `catch` stores `err.message` in
`error`; `finally` clears `loading`. -/
def fetchPosts (s : ViewState) (o : FetchOutcome) : ViewState :=
  let s1 :=
    match o with
    | .networkError msg => { s with error := some msg }
    | .response ok body =>
      if !ok then
        { s with error := some genericErrorMessage }
      else
        match body with
        | .parseError msg => { s with error := some msg }
        | .decoded posts => { s with posts := posts }
  { s1 with loading := false }

/-- The click handler `handleButtonClick` (App.jsx lines 53-63), with the
`Math.random() > 0.5` draw passed in as `isSuccess`: the success branch sets
`popupImage` to the success asset then clears `error`; the failure branch
clears `error` then sets `popupImage` to the error asset. -/
def handleButtonClick (s : ViewState) (isSuccess : Bool) : ViewState :=
  if isSuccess then
    { s with popupImage := some Asset.successImage, error := none }
  else
    { s with error := none, popupImage := some Asset.errorImage }

/-- DOM-like node tree produced by the JSX.  `p`, `div` carry an optional
`className`; `img` carries its `src` (the state value passed to it, possibly
null) and `alt`; the button's caption is kept as a field of the leaf. -/
inductive Node where
  | text (s : String)
  | p (className : Option String) (children : List Node)
  | button (caption : String)
  | img (src : Option Asset) (alt : String)
  | div (className : Option String) (children : List Node)
  | h1 (children : List Node)
  | h2 (children : List Node)

/-- Tree rendered for one post inside `posts.map` (App.jsx lines 103-106):
a `div.post` with the title in an `h2` and the body in a `p`. -/
def renderPost (post : Post) : Node :=
  Node.div (some "post")
    [Node.h2 [Node.text post.title], Node.p none [Node.text post.body]]

/-- The component's render (App.jsx lines 66-111): early return of the
loading paragraph while `loading`; early return of the bare error paragraph
when `error` is truthy; otherwise a `div` holding the button, then the three
guarded blocks in source order — the popup image when `popupImage && !error`,
the error popup (error image plus error paragraph) when `error && !popupImage`,
and the post list when `!error && !popupImage`. -/
def render (s : ViewState) : Node :=
  if s.loading then
    Node.p none [Node.text "Loading posts..."]
  else if errTruthy s.error then
    Node.p (some "error") [Node.text (errString s.error)]
  else
    Node.div none
      ([Node.button "Click Me"]
        ++ (if popupTruthy s.popupImage && !errTruthy s.error then
              [Node.div (some "popup") [Node.img s.popupImage "Success"]]
            else [])
        ++ (if errTruthy s.error && !popupTruthy s.popupImage then
              [Node.div (some "popup")
                [Node.img (some Asset.errorImage) "Error",
                 Node.p none [Node.text (errString s.error)]]]
            else [])
        ++ (if !errTruthy s.error && !popupTruthy s.popupImage then
              [Node.div none
                (Node.h1 [Node.text "Blog Posts"] :: s.posts.map renderPost)]
            else []))

mutual

/-- Element/text tags occurring in a node tree, in document order. -/
def tags : Node → List String
  | .text _ => ["text"]
  | .p _ cs => "p" :: tagsList cs
  | .button _ => ["button"]
  | .img _ _ => ["img"]
  | .div _ cs => "div" :: tagsList cs
  | .h1 cs => "h1" :: tagsList cs
  | .h2 cs => "h2" :: tagsList cs

/-- Tags of a list of sibling nodes, in order. -/
def tagsList : List Node → List String
  | [] => []
  | n :: ns => tags n ++ tagsList ns

end

mutual

/-- All text-node contents occurring in a node tree, in document order
(button captions are attributes of the `button` leaf, not text nodes). -/
def collectTexts : Node → List String
  | .text s => [s]
  | .p _ cs => collectTextsList cs
  | .button _ => []
  | .img _ _ => []
  | .div _ cs => collectTextsList cs
  | .h1 cs => collectTextsList cs
  | .h2 cs => collectTextsList cs

/-- Text-node contents of a list of sibling nodes, in order. -/
def collectTextsList : List Node → List String
  | [] => []
  | n :: ns => collectTexts n ++ collectTextsList ns

end

/-!
Effect-scheduling model.  React runs an effect registered with a dependency
array after the first render, and again after a later render exactly when
the dependency array differs from the one of the previous render.  The
component registers its effect with the literal empty array `[]`
(App.jsx line 45), so the comparison never observes a change.  Each run of
the effect body calls `fetchPosts()`, which issues exactly one request to
the endpoint.
-/

/-- Predicate, following React's dependency semantics, for whether the
effect runs after render `i`: after the first render always, afterwards
exactly when the dependency array changed since the previous render. -/
def effectRuns (deps : Nat → List Nat) : Nat → Bool
  | 0 => true
  | i + 1 => deps (i + 1) != deps i

/-- Dependency array supplied by the component: the literal `[]` on every
render (App.jsx line 45). -/
def emptyDeps : Nat → List Nat := fun _ => []

/-- Number of fetches issued across renders `0..n` of one mounted instance:
one per effect run, since the effect body calls `fetchPosts()` once and
`fetchPosts` performs a single `fetch`. -/
def fetchCallCount (deps : Nat → List Nat) (n : Nat) : Nat :=
  ((List.range (n + 1)).filter (effectRuns deps)).length

/-- Operations that mutate the component state during a mount: the loader
settling with some fetch outcome, or a button click with some random draw. -/
inductive Op where
  | settle (o : FetchOutcome)
  | click (isSuccess : Bool)
deriving DecidableEq, Repr

/-- Application of one operation to the state. -/
def applyOp (s : ViewState) : Op → ViewState
  | .settle o => fetchPosts s o
  | .click b => handleButtonClick s b

/-- Application of a sequence of operations, oldest first. -/
def runOps (s : ViewState) (ops : List Op) : ViewState :=
  ops.foldl applyOp s

/-! Helper lemmas about the embedded operations. -/

@[simp] theorem errTruthy_none : errTruthy none = false := rfl

@[simp] theorem errTruthy_some (s : String) : errTruthy (some s) = !(s == "") := rfl

@[simp] theorem popupTruthy_none : popupTruthy none = false := rfl

@[simp] theorem popupTruthy_some (a : Asset) : popupTruthy (some a) = true := rfl

/-- Whatever the outcome, the `finally` block sets `loading` to false. -/
theorem fetchPosts_loading (s : ViewState) (o : FetchOutcome) :
    (fetchPosts s o).loading = false := by
  cases o with
  | networkError m => rfl
  | response ok body => cases ok <;> cases body <;> rfl

/-- The loader never touches `popupImage`. -/
theorem fetchPosts_popupImage (s : ViewState) (o : FetchOutcome) :
    (fetchPosts s o).popupImage = s.popupImage := by
  cases o with
  | networkError m => rfl
  | response ok body => cases ok <;> cases body <;> rfl

/-- The click handler always leaves a non-null `popupImage`. -/
theorem handleButtonClick_popupImage (s : ViewState) (b : Bool) :
    (handleButtonClick s b).popupImage
      = some (if b then Asset.successImage else Asset.errorImage) := by
  cases b <;> rfl

/-- The click handler always clears `error`. -/
theorem handleButtonClick_error (s : ViewState) (b : Bool) :
    (handleButtonClick s b).error = none := by
  cases b <;> rfl

/-- The click handler leaves `loading` unchanged. -/
theorem handleButtonClick_loading (s : ViewState) (b : Bool) :
    (handleButtonClick s b).loading = s.loading := by
  cases b <;> rfl

/-- The click handler leaves `posts` unchanged. -/
theorem handleButtonClick_posts (s : ViewState) (b : Bool) :
    (handleButtonClick s b).posts = s.posts := by
  cases b <;> rfl

/-- Rendered tree of a settled state with no error and a popup image shown:
the button followed by the popup `div` holding the image. -/
theorem render_popup (s : ViewState) (a : Asset)
    (hl : s.loading = false) (he : s.error = none) (hp : s.popupImage = some a) :
    render s
      = Node.div none
          [Node.button "Click Me",
           Node.div (some "popup") [Node.img (some a) "Success"]] := by
  simp [render, hl, he, hp]

/-- Every operation preserves non-nullness of `popupImage`. -/
theorem applyOp_popupImage (s : ViewState) (op : Op)
    (h : s.popupImage ≠ none) : (applyOp s op).popupImage ≠ none := by
  cases op with
  | settle o => rw [applyOp, fetchPosts_popupImage]; exact h
  | click b => rw [applyOp, handleButtonClick_popupImage]; cases b <;> simp

/-- Any sequence of operations preserves non-nullness of `popupImage`. -/
theorem runOps_popupImage (s : ViewState) (ops : List Op)
    (h : s.popupImage ≠ none) : (runOps s ops).popupImage ≠ none := by
  induction ops generalizing s with
  | nil => exact h
  | cons op ops ih => exact ih (applyOp s op) (applyOp_popupImage s op h)

/-- Rendered tree of any state whose `popupImage` is non-null contains no
`h1` element (in particular not the post-list heading). -/
theorem render_no_h1_of_popup (s : ViewState)
    (h : s.popupImage ≠ none) : (tags (render s)).contains "h1" = false := by
  obtain ⟨a, ha⟩ := Option.ne_none_iff_exists'.mp h
  by_cases hl : s.loading
  · simp [render, hl, tags, tagsList]
  · by_cases he : errTruthy s.error
    · simp [render, hl, he, tags, tagsList]
    · simp [render, hl, he, ha, tags, tagsList]

/-! Claim theorems. -/

/-- C1, counterexample.  In the post-fetch-failure state (error set to the
generic message, `popupImage` null, `loading` false, reached from a non-ok
response before any click), the render is the bare error paragraph from the
early return at App.jsx line 69 — its tag list is `["p", "text"]`, so it
contains no image at all and is not the error popup view the claim
describes. -/
theorem C1_error_popup_counterexample :
    (fetchPosts initialState (.response false (.decoded []))).loading = false
      ∧ (fetchPosts initialState (.response false (.decoded []))).error
          = some genericErrorMessage
      ∧ (fetchPosts initialState (.response false (.decoded []))).popupImage = none
      ∧ render (fetchPosts initialState (.response false (.decoded [])))
          = Node.p (some "error") [Node.text genericErrorMessage]
      ∧ tags (render (fetchPosts initialState (.response false (.decoded []))))
          = ["p", "text"]
      ∧ render (fetchPosts initialState (.response false (.decoded [])))
          ≠ Node.div (some "popup")
              [Node.img (some Asset.errorImage) "Error",
               Node.p none [Node.text genericErrorMessage]] := by
  refine ⟨rfl, rfl, rfl, ?_, ?_, ?_⟩
  · simp [render, fetchPosts, initialState, genericErrorMessage, errString]
  · simp [render, fetchPosts, initialState, genericErrorMessage, errString,
      tags, tagsList]
  · simp [render, fetchPosts, initialState, genericErrorMessage, errString]

/-- C1, amended.  For every state with a truthy (non-null, non-empty) error,
`popupImage` null and `loading` false, the view selector renders only the
bare error message paragraph of the early return at App.jsx line 69; the
error popup view (error image plus message paragraph, lines 87-96) is never
produced, because the early return precedes it whenever its guard could
hold. -/
theorem C1_error_view_amended (s : ViewState) (msg : String)
    (hl : s.loading = false) (he : s.error = some msg) (hm : ¬ msg = "")
    (hp : s.popupImage = none) :
    render s = Node.p (some "error") [Node.text msg]
      ∧ tags (render s) = ["p", "text"] := by
  refine ⟨?_, ?_⟩
  · simp [render, hl, he, hm, errString]
  · simp [render, hl, he, hm, errString, tags, tagsList]

/-- C1, witness for the amended theorem at the state left by a non-ok
response on the freshly mounted component. -/
theorem C1_error_view_amended_witness :
    render (fetchPosts initialState (.response false (.decoded [])))
        = Node.p (some "error") [Node.text genericErrorMessage]
      ∧ tags (render (fetchPosts initialState (.response false (.decoded []))))
        = ["p", "text"] :=
  C1_error_view_amended (fetchPosts initialState (.response false (.decoded [])))
    genericErrorMessage rfl rfl (by decide) rfl

/-- C2, counterexample.  A network/transport failure whose rejection
carries the message "Failed to fetch" stores that message, not the generic
string of App.jsx line 33, and so differs from what a non-ok response
stores: the failure kinds are distinguishable. -/
theorem C2_same_message_counterexample :
    (fetchPosts initialState (.networkError "Failed to fetch")).error
        = some "Failed to fetch"
      ∧ (fetchPosts initialState (.networkError "Failed to fetch")).error
          ≠ some genericErrorMessage
      ∧ (fetchPosts initialState (.networkError "Failed to fetch")).error
          ≠ (fetchPosts initialState (.response false (.decoded []))).error :=
  ⟨rfl, by decide, by decide⟩

/-- C2, amended.  The catch block stores `err.message`, so only the non-ok
HTTP status branch stores the fixed generic message; a network/transport
failure and a JSON parse failure each store the message of their own thrown
error, and are distinguishable from the generic message whenever those
messages differ from it. -/
theorem C2_error_message_amended (s : ViewState) (msg : String) (body : JsonResult) :
    (fetchPosts s (.networkError msg)).error = some msg
      ∧ (fetchPosts s (.response false body)).error = some genericErrorMessage
      ∧ (fetchPosts s (.response true (.parseError msg))).error = some msg := by
  refine ⟨rfl, ?_, rfl⟩
  cases body <;> rfl

/-- C3.  From every settled prior state (`loading` false, any fetch
outcome), a trigger invocation with a failure draw leaves `popupImage` equal
to the error asset and `error` null, and the render is the button plus the
popup `div` holding the error image, with no text node at all — in
particular not the original fetch error text. -/
theorem C3_failure_draw_render (s : ViewState) (hl : s.loading = false) :
    (handleButtonClick s false).popupImage = some Asset.errorImage
      ∧ (handleButtonClick s false).error = none
      ∧ render (handleButtonClick s false)
          = Node.div none
              [Node.button "Click Me",
               Node.div (some "popup") [Node.img (some Asset.errorImage) "Success"]]
      ∧ collectTexts (render (handleButtonClick s false)) = [] := by
  have hl' : (handleButtonClick s false).loading = false := by
    rw [handleButtonClick_loading]; exact hl
  have hr := render_popup (handleButtonClick s false) Asset.errorImage hl' rfl rfl
  refine ⟨rfl, rfl, hr, ?_⟩
  rw [hr]; rfl

/-- C3, witness at the prior state left by a native fetch failure, whose
stored error text disappears from the render after the click. -/
theorem C3_failure_draw_render_witness :
    (handleButtonClick (fetchPosts initialState (.networkError "boom")) false).popupImage
        = some Asset.errorImage
      ∧ (handleButtonClick (fetchPosts initialState (.networkError "boom")) false).error
          = none
      ∧ render (handleButtonClick (fetchPosts initialState (.networkError "boom")) false)
          = Node.div none
              [Node.button "Click Me",
               Node.div (some "popup") [Node.img (some Asset.errorImage) "Success"]]
      ∧ collectTexts
          (render (handleButtonClick (fetchPosts initialState (.networkError "boom")) false))
          = [] :=
  C3_failure_draw_render (fetchPosts initialState (.networkError "boom")) rfl

/-- C4.  A successful fetch of any list of posts on the freshly mounted
component leaves `error` and `popupImage` null and stores the list
verbatim; the render is the button plus the post-list `div`, holding the
heading and exactly one block per post, in response order, each block
showing that post's title in an `h2` and its body in a `p`. -/
theorem C4_success_render (posts : List Post) :
    (fetchPosts initialState (.response true (.decoded posts))).error = none
      ∧ (fetchPosts initialState (.response true (.decoded posts))).popupImage = none
      ∧ (fetchPosts initialState (.response true (.decoded posts))).posts = posts
      ∧ render (fetchPosts initialState (.response true (.decoded posts)))
          = Node.div none
              [Node.button "Click Me",
               Node.div none
                 (Node.h1 [Node.text "Blog Posts"] :: posts.map renderPost)]
      ∧ (posts.map renderPost).length = posts.length
      ∧ ∀ post : Post, renderPost post
          = Node.div (some "post")
              [Node.h2 [Node.text post.title], Node.p none [Node.text post.body]] := by
  refine ⟨rfl, rfl, rfl, ?_, posts.length_map renderPost, fun _ => rfl⟩
  simp [render, fetchPosts, initialState]

/-- C5.  From every settled prior state (`loading` false, any fetch
outcome), a trigger invocation with a success draw leaves `popupImage`
equal to the success asset and `error` null, and the render is the button
plus the popup `div` holding the success image, with no text node at all. -/
theorem C5_success_draw_render (s : ViewState) (hl : s.loading = false) :
    (handleButtonClick s true).popupImage = some Asset.successImage
      ∧ (handleButtonClick s true).error = none
      ∧ render (handleButtonClick s true)
          = Node.div none
              [Node.button "Click Me",
               Node.div (some "popup") [Node.img (some Asset.successImage) "Success"]]
      ∧ collectTexts (render (handleButtonClick s true)) = [] := by
  have hl' : (handleButtonClick s true).loading = false := by
    rw [handleButtonClick_loading]; exact hl
  have hr := render_popup (handleButtonClick s true) Asset.successImage hl' rfl rfl
  refine ⟨rfl, rfl, hr, ?_⟩
  rw [hr]; rfl

/-- C5, witness at the prior state left by a non-ok response, whose stored
generic error text disappears from the render after the click. -/
theorem C5_success_draw_render_witness :
    (handleButtonClick (fetchPosts initialState (.response false (.decoded []))) true).popupImage
        = some Asset.successImage
      ∧ (handleButtonClick (fetchPosts initialState (.response false (.decoded []))) true).error
          = none
      ∧ render
          (handleButtonClick (fetchPosts initialState (.response false (.decoded []))) true)
          = Node.div none
              [Node.button "Click Me",
               Node.div (some "popup") [Node.img (some Asset.successImage) "Success"]]
      ∧ collectTexts
          (render (handleButtonClick (fetchPosts initialState (.response false (.decoded []))) true))
          = [] :=
  C5_success_draw_render (fetchPosts initialState (.response false (.decoded []))) rfl

/-- C6.  Whatever the outcome of the mount-time fetch — network failure,
non-ok response, parse failure or success — the `finally` block leaves
`loading` false once the loader settles. -/
theorem C6_loading_cleared (s : ViewState) (o : FetchOutcome) :
    (fetchPosts s o).loading = false :=
  fetchPosts_loading s o

/-- C7.  The effect is registered with the literal empty dependency array,
which never differs between consecutive renders, so across renders `0..n`
of a mounted instance the effect body runs — and hence the fetch is issued —
exactly once, whatever `n`. -/
theorem C7_single_fetch_per_mount (n : Nat) : fetchCallCount emptyDeps n = 1 := by
  induction n with
  | zero => rfl
  | succ k ih =>
    have h : effectRuns emptyDeps (k + 1) = false := by
      simp [effectRuns, emptyDeps]
    unfold fetchCallCount at ih ⊢
    rw [List.range_succ, List.filter_append, List.length_append, ih]
    simp [h]

/-- C8.  Non-nullness of `popupImage` is preserved by every operation (the
loader never writes it, the click handler writes one of the two assets), so
after any further sequence of loader settlements and clicks it stays
non-null and the rendered tree contains no `h1` element — the post-list
view, whose heading is the only `h1`, is never rendered again; moreover a
click makes `popupImage` non-null from any state, so this holds for the
rest of the mount after the first trigger invocation. -/
theorem C8_popup_never_cleared (s : ViewState) (b : Bool) (ops : List Op)
    (h : s.popupImage ≠ none) :
    (runOps s ops).popupImage ≠ none
      ∧ (tags (render (runOps s ops))).contains "h1" = false
      ∧ (runOps s (Op.click b :: ops)).popupImage ≠ none
      ∧ (tags (render (runOps s (Op.click b :: ops)))).contains "h1" = false := by
  have h1 := runOps_popupImage s ops h
  have hc : (handleButtonClick s b).popupImage ≠ none := by
    rw [handleButtonClick_popupImage]; cases b <;> simp
  have h2 : (runOps (handleButtonClick s b) ops).popupImage ≠ none :=
    runOps_popupImage _ ops hc
  exact ⟨h1, render_no_h1_of_popup _ h1, h2, render_no_h1_of_popup _ h2⟩

/-- Settled state already showing the success popup, used as a concrete
starting point below. -/
def popupShownState : ViewState :=
  { posts := [], error := none, loading := false,
    popupImage := some Asset.successImage }

/-- C8, witness: a state already showing the success popup, followed by a
failure-draw click and a late loader settlement with a network error. -/
theorem C8_popup_never_cleared_witness :
    (runOps popupShownState
        [Op.settle (FetchOutcome.networkError "boom")]).popupImage ≠ none
      ∧ (tags (render (runOps popupShownState
          [Op.settle (FetchOutcome.networkError "boom")]))).contains "h1" = false
      ∧ (runOps popupShownState
          (Op.click false :: [Op.settle (FetchOutcome.networkError "boom")])).popupImage
          ≠ none
      ∧ (tags (render (runOps popupShownState
          (Op.click false :: [Op.settle (FetchOutcome.networkError "boom")])))).contains "h1"
          = false :=
  C8_popup_never_cleared popupShownState
    false [Op.settle (FetchOutcome.networkError "boom")] (by decide)

/-- C9, counterexample.  JavaScript truthiness makes the empty string falsy,
so in the state left by a rejection carrying the empty message (`loading`
false, `error` non-null but empty), the early return at App.jsx line 69 is
skipped and the render is the full `div` — including the button, so the
trigger is invocable — together with the post list, not the bare error
paragraph. -/
theorem C9_error_view_counterexample :
    (fetchPosts initialState (.networkError "")).loading = false
      ∧ (fetchPosts initialState (.networkError "")).error ≠ none
      ∧ render (fetchPosts initialState (.networkError ""))
          = Node.div none
              [Node.button "Click Me",
               Node.div none [Node.h1 [Node.text "Blog Posts"]]]
      ∧ (tags (render (fetchPosts initialState (.networkError "")))).contains "button"
          = true
      ∧ render (fetchPosts initialState (.networkError ""))
          ≠ Node.p (some "error") [Node.text ""] := by
  refine ⟨rfl, by decide, ?_, ?_, ?_⟩
  · simp [render, fetchPosts, initialState]
  · simp [render, fetchPosts, initialState, tags, tagsList]
  · simp [render, fetchPosts, initialState]

/-- C9, amended.  For every state with `loading` false and `error` non-null
AND non-empty (truthy in JavaScript), the render is solely the bare error
message paragraph, whose tag list `["p", "text"]` contains no `button`
element, so the popup trigger is not invocable through the rendered UI. -/
theorem C9_no_button_amended (s : ViewState) (msg : String)
    (hl : s.loading = false) (he : s.error = some msg) (hm : ¬ msg = "") :
    render s = Node.p (some "error") [Node.text msg]
      ∧ (tags (render s)).contains "button" = false := by
  refine ⟨?_, ?_⟩
  · simp [render, hl, he, hm, errString]
  · simp [render, hl, he, hm, errString, tags, tagsList]

/-- C9, witness for the amended theorem at the state left by a rejection
carrying a non-empty message. -/
theorem C9_no_button_amended_witness :
    render (fetchPosts initialState (.networkError "boom"))
        = Node.p (some "error") [Node.text "boom"]
      ∧ (tags (render (fetchPosts initialState (.networkError "boom")))).contains "button"
        = false :=
  C9_no_button_amended (fetchPosts initialState (.networkError "boom"))
    "boom" rfl rfl (by decide)

/-- C10.  The loader writes only the field of its own branch: every failure
kind (network error, non-ok response, parse failure) leaves `posts` as it
was — the initial empty list on a fresh mount — and a success leaves
`error` as it was — null on a fresh mount. -/
theorem C10_branch_isolation (s : ViewState) (msg : String)
    (body : JsonResult) (posts : List Post) :
    (fetchPosts s (.networkError msg)).posts = s.posts
      ∧ (fetchPosts s (.response false body)).posts = s.posts
      ∧ (fetchPosts s (.response true (.parseError msg))).posts = s.posts
      ∧ (fetchPosts s (.response true (.decoded posts))).error = s.error
      ∧ (fetchPosts initialState (.networkError msg)).posts = []
      ∧ (fetchPosts initialState (.response false body)).posts = []
      ∧ (fetchPosts initialState (.response true (.parseError msg))).posts = []
      ∧ (fetchPosts initialState (.response true (.decoded posts))).error = none := by
  refine ⟨rfl, ?_, rfl, rfl, rfl, ?_, rfl, rfl⟩
  · cases body <;> rfl
  · cases body <;> rfl

end BlogApp
